import Mathlib

/-!
Shallow embedding of the coal-consumption calculator
(`coal_consumption/utils.py`, `coal_consumption/correction_factors.py`,
`coal_consumption/coal_consumption.py`).

Modelling conventions:
* Python floats are modelled as exact rationals (`ℚ`); Python `max`/`min`
  clamping becomes `max`/`min` on `ℚ`.
* A Python dict of numeric parameters (a Parameter Set) is an association
  list `List (String × ℚ)`; `d.get(k, default)` becomes `dict_get`,
  `k in d` becomes `dict_has`, and `d.copy()` followed by `d[k] = v`
  becomes consing `(k, v)` in front (lookup takes the first match).
* Calculation Settings are an association list `List (String × Bool)`.
* Python division `/` raises `ZeroDivisionError` on a zero denominator, so
  a function whose source contains an unguarded division is embedded as an
  `Option`-valued function through `py_div` (`none` models the exception);
  `utils.safe_divide` is guarded in the source and stays total.
* A Python dict with a fixed key set returned by a calculation is embedded
  as a structure whose fields are the dict's keys; the per-month
  comparison dict of `calculate_comparison_with_benchmark`, whose key set
  depends on the inputs, is embedded as its lookup function
  (`month_comparisons`).
-/

/-- Parameter Set: Python dict from parameter name to float. -/
abbrev Params := List (String × ℚ)

/-- Calculation Settings: Python dict from correction name to enabled flag. -/
abbrev Settings := List (String × Bool)

/-- Behaviour of `params.get(key, default)` on a Parameter Set. -/
def dict_get (p : Params) (k : String) (d : ℚ) : ℚ :=
  (p.lookup k).getD d

/-- Behaviour of `key in params` on a Parameter Set. -/
def dict_has (p : Params) (k : String) : Bool :=
  (p.lookup k).isSome

/-- Behaviour of `settings.get(key, default)` on Calculation Settings. -/
def settings_get (s : Settings) (k : String) (d : Bool) : Bool :=
  (s.lookup k).getD d

/-- utils.safe_divide: returns `default` when the denominator is zero. -/
def safe_divide (numerator denominator default : ℚ) : ℚ :=
  if denominator = 0 then default else numerator / denominator

/-- utils.validate_numeric on a numeric input: clamp below by `min_value`
(when given), then above by `max_value` (when given). -/
def validate_numeric (value : ℚ) (min_value max_value : Option ℚ) : ℚ :=
  let v₁ := match min_value with
    | some m => max m value
    | none => value
  match max_value with
  | some m => min m v₁
  | none => v₁

/-- Python float division: `none` models the `ZeroDivisionError` raised on a
zero denominator. -/
def py_div (a b : ℚ) : Option ℚ :=
  if b = 0 then none else some (a / b)

/-- CorrectionFactors.calculate_load_factor_correction. -/
def calculate_load_factor_correction (actual_load base_load : ℚ) : ℚ :=
  let load_ratio := safe_divide actual_load base_load 1.0
  let correction_factor :=
    if load_ratio < 0.3 then 1.4 - 0.6 * load_ratio
    else if load_ratio < 0.5 then 1.25 - 0.4 * load_ratio
    else if load_ratio < 0.7 then 1.15 - 0.2 * load_ratio
    else if load_ratio < 1.0 then 1.0
    else if load_ratio < 1.1 then 1.0 + 0.05 * (load_ratio - 1.0)
    else 1.1 + 0.1 * (load_ratio - 1.1)
  max 0.8 (min 1.5 correction_factor)

/-- CorrectionFactors.calculate_temperature_correction. -/
def calculate_temperature_correction (actual_temp base_temp : ℚ) : ℚ :=
  let temp_diff := actual_temp - base_temp
  let correction_factor := 1 + 0.002 * temp_diff
  max 0.95 (min 1.05 correction_factor)

/-- CorrectionFactors.calculate_pressure_correction. -/
def calculate_pressure_correction (actual_pressure base_pressure : ℚ) : ℚ :=
  let pressure_ratio := safe_divide actual_pressure base_pressure 1.0
  let correction_factor := 1 + 2.3 * (pressure_ratio - 1.0)
  max 0.98 (min 1.02 correction_factor)

/-- CorrectionFactors.calculate_humidity_correction. -/
def calculate_humidity_correction (actual_humidity base_humidity : ℚ) : ℚ :=
  let humidity_diff := actual_humidity - base_humidity
  let correction_factor := 1 + 0.0001 * humidity_diff
  max 0.99 (min 1.01 correction_factor)

/-- CorrectionFactors.calculate_heating_correction. -/
def calculate_heating_correction (heating_load total_load : ℚ) : ℚ :=
  if total_load ≤ 0 ∨ heating_load ≤ 0 then 1.0
  else
    let heating_ratio := safe_divide heating_load total_load 0.0
    let correction_factor := 1.0 - 0.3 * heating_ratio
    max 0.7 (min 1.0 correction_factor)

/-- Pressure sub-factor of the steam-parameter correction (the local
`pressure_correction` variable in the source). -/
def steam_pressure_sub (actual_steam_pressure base_steam_pressure : ℚ) : ℚ :=
  let pressure_ratio := safe_divide actual_steam_pressure base_steam_pressure 1.0
  1 + 0.002 * (pressure_ratio - 1.0)

/-- CorrectionFactors.calculate_steam_parameter_correction. -/
def calculate_steam_parameter_correction (actual_steam_temp actual_steam_pressure
    base_steam_temp base_steam_pressure : ℚ) : ℚ :=
  let temp_diff := actual_steam_temp - base_steam_temp
  let temp_correction := 1 + 0.0005 * temp_diff
  let pressure_correction := steam_pressure_sub actual_steam_pressure base_steam_pressure
  let correction_factor := temp_correction * pressure_correction
  max 0.97 (min 1.03 correction_factor)

/-- CorrectionFactors.calculate_fuel_correction. -/
def calculate_fuel_correction (actual_calorific_value base_calorific_value : ℚ) : ℚ :=
  let correction_factor := safe_divide base_calorific_value actual_calorific_value 1.0
  max 0.8 (min 1.2 correction_factor)

/-- CorrectionFactors.calculate_sea_temperature_correction. -/
def calculate_sea_temperature_correction (actual_sea_temp base_sea_temp : ℚ) : ℚ :=
  let sea_temp_diff := actual_sea_temp - base_sea_temp
  let correction_factor := 1 + 0.0015 * sea_temp_diff
  max 0.98 (min 1.02 correction_factor)

/-- Correction Factor Set: the dict returned by
CorrectionFactors.calculate_comprehensive_correction. -/
structure Corrections where
  load_factor : ℚ
  temperature : ℚ
  pressure : ℚ
  humidity : ℚ
  heating : ℚ
  steam_parameter : ℚ
  fuel : ℚ
  sea_temperature : ℚ
  comprehensive : ℚ
deriving Repr, DecidableEq

/-- CorrectionFactors.calculate_comprehensive_correction: each individual
factor is computed when its settings flag allows it (defaults: all `True`
except `enable_sea_temperature_correction`, which defaults to `False` and
additionally requires the key `base_sea_temperature` to be present), the
load-factor correction is always computed, and the comprehensive factor is
the product of the eight entries clamped to [0.7, 1.3]. -/
def calculate_comprehensive_correction (params : Params)
    (calculation_settings : Settings) : Corrections :=
  let temperature :=
    if settings_get calculation_settings "enable_temperature_correction" true then
      calculate_temperature_correction
        (dict_get params "actual_temperature" (dict_get params "base_temperature" 25))
        (dict_get params "base_temperature" 25)
    else 1.0
  let pressure :=
    if settings_get calculation_settings "enable_pressure_correction" true then
      calculate_pressure_correction
        (dict_get params "actual_pressure" (dict_get params "base_pressure" 16.7))
        (dict_get params "base_pressure" 16.7)
    else 1.0
  let humidity :=
    if settings_get calculation_settings "enable_humidity_correction" true then
      calculate_humidity_correction
        (dict_get params "actual_humidity" (dict_get params "base_humidity" 60))
        (dict_get params "base_humidity" 60)
    else 1.0
  let heating :=
    if settings_get calculation_settings "enable_heating_correction" true then
      calculate_heating_correction
        (dict_get params "heating_load" 0)
        (dict_get params "total_load" (dict_get params "base_load" 100))
    else 1.0
  let steam_parameter :=
    if settings_get calculation_settings "enable_steam_parameter_correction" true then
      calculate_steam_parameter_correction
        (dict_get params "actual_steam_temp" 540)
        (dict_get params "actual_steam_pressure" (dict_get params "base_pressure" 16.7))
        (dict_get params "base_steam_temp" 540)
        (dict_get params "base_steam_pressure" (dict_get params "base_pressure" 16.7))
    else 1.0
  let fuel :=
    if settings_get calculation_settings "enable_fuel_correction" true then
      calculate_fuel_correction
        (dict_get params "actual_calorific_value" (dict_get params "coal_calorific_value" 4854))
        (dict_get params "coal_calorific_value" 4854)
    else 1.0
  let sea_temperature :=
    if settings_get calculation_settings "enable_sea_temperature_correction" false
        && dict_has params "base_sea_temperature" then
      calculate_sea_temperature_correction
        (dict_get params "actual_sea_temperature" (dict_get params "base_sea_temperature" 19))
        (dict_get params "base_sea_temperature" 19)
    else 1.0
  let load_factor :=
    calculate_load_factor_correction
      (dict_get params "actual_load" (dict_get params "base_load" 100))
      (dict_get params "base_load" 100)
  let comprehensive_correction :=
    load_factor * temperature * pressure * humidity * heating * steam_parameter *
      fuel * sea_temperature
  { load_factor := load_factor
    temperature := temperature
    pressure := pressure
    humidity := humidity
    heating := heating
    steam_parameter := steam_parameter
    fuel := fuel
    sea_temperature := sea_temperature
    comprehensive := max 0.7 (min 1.3 comprehensive_correction) }

/-- CoalConsumptionCalculator.calculate_basic_coal_consumption: efficiency is
clamped to [0.5, 1.0] and the calorific value to [1000, 8000] kcal/kg before
use; the result of the unguarded division is clamped to [80, 250] g/kWh.
The `electricity_output` argument is accepted but never read. -/
def calculate_basic_coal_consumption (electricity_output coal_calorific_value
    efficiency : ℚ) : Option ℚ :=
  let efficiency := validate_numeric efficiency (some 0.5) (some 1.0)
  let coal_calorific_value := validate_numeric coal_calorific_value (some 1000) (some 8000)
  let coal_calorific_value_kj := coal_calorific_value * 4.1868
  if coal_calorific_value_kj ≤ 0 then some 0.0
  else
    (py_div (3600 * 1000) (coal_calorific_value_kj * efficiency)).map
      fun coal_consumption_g => max 80 (min 250 coal_consumption_g)

/-- Consumption Result: the dict returned by
CoalConsumptionCalculator.calculate_benchmark_coal_consumption (the
individual correction entries merged in by `results.update(corrections)`
are kept in the `corrections` field). -/
structure BenchmarkResult where
  basic_coal_consumption : ℚ
  benchmark_coal_consumption : ℚ
  correction_factor : ℚ
  total_correction_factor : ℚ
  corrections : Corrections
deriving Repr, DecidableEq

/-- CoalConsumptionCalculator.calculate_benchmark_coal_consumption. The
`total_correction_factor` is the product over the correction dict excluding
the keys `comprehensive` and `heating`. -/
def calculate_benchmark_coal_consumption (params : Params)
    (calculation_settings : Settings) : Option BenchmarkResult :=
  let electricity_output := dict_get params "electricity_output" 1000
  let coal_calorific_value := dict_get params "coal_calorific_value" 4854
  let efficiency := dict_get params "efficiency" 0.9
  let corrections := calculate_comprehensive_correction params calculation_settings
  (calculate_basic_coal_consumption electricity_output coal_calorific_value efficiency).map
    fun basic_coal_consumption =>
      let benchmark_coal_consumption := basic_coal_consumption * corrections.comprehensive
      let total_factor := corrections.load_factor * corrections.temperature *
        corrections.pressure * corrections.humidity * corrections.steam_parameter *
        corrections.fuel * corrections.sea_temperature
      { basic_coal_consumption := basic_coal_consumption
        benchmark_coal_consumption := benchmark_coal_consumption
        correction_factor := corrections.comprehensive
        total_correction_factor := total_factor
        corrections := corrections }

/-- Result dict of CoalConsumptionCalculator.calculate_heating_impact. -/
structure HeatingImpact where
  heating_coal_consumption : ℚ
  combined_coal_consumption : ℚ
  heating_impact : ℚ
deriving Repr, DecidableEq

/-- CoalConsumptionCalculator.calculate_heating_impact. The heating-coal
division `(heating_output * 1000000) / (coal_calorific_value_kj * efficiency)`
is unguarded in the source, so it goes through `py_div`. -/
def calculate_heating_impact (params : Params) : Option HeatingImpact :=
  let electricity_output := dict_get params "electricity_output" 1000
  let heating_output := dict_get params "heating_output" 500
  let coal_calorific_value := dict_get params "coal_calorific_value" 4854
  let efficiency := dict_get params "efficiency" 0.9
  (calculate_basic_coal_consumption electricity_output coal_calorific_value efficiency).bind
    fun power_only_coal =>
      if heating_output = 0 then
        some { heating_coal_consumption := 0.0
               combined_coal_consumption := power_only_coal
               heating_impact := 0.0 }
      else
        let coal_calorific_value_kj := coal_calorific_value * 4.1868
        (py_div (heating_output * 1000000) (coal_calorific_value_kj * efficiency)).map
          fun heating_coal =>
            let heat_to_power_ratio := safe_divide heating_output (electricity_output * 3.6) 0.0
            let combined_coal_consumption :=
              max 80 (min 200 (power_only_coal * (1 - 0.4 * heat_to_power_ratio)))
            { heating_coal_consumption := heating_coal
              combined_coal_consumption := combined_coal_consumption
              heating_impact := combined_coal_consumption - power_only_coal }

/-- CoalConsumptionCalculator.calculate_coal_consumption_sensitivity: sweeps
`variable_name` over `steps` evenly spaced values and pairs each value with
the benchmark consumption computed on the overridden Parameter Set. -/
def calculate_coal_consumption_sensitivity (params : Params)
    (calculation_settings : Settings) (variable_name : String)
    (min_value max_value : ℚ) (steps : ℕ) : Option (List (ℚ × ℚ)) :=
  let steps := if steps < 2 then 2 else steps
  let step_size := safe_divide (max_value - min_value) ((steps : ℚ) - 1) 0.0
  (List.range steps).mapM fun (i : ℕ) =>
    let value := min_value + (i : ℚ) * step_size
    let test_params : Params := (variable_name, value) :: params
    (calculate_benchmark_coal_consumption test_params calculation_settings).map
      fun result => (value, result.benchmark_coal_consumption)

/-- Per-parameter comparison record built by
CoalConsumptionCalculator.calculate_comparison_with_benchmark. -/
structure ComparisonEntry where
  benchmark : ℚ
  monthly : ℚ
  difference : ℚ
  ratio : ℚ
deriving Repr, DecidableEq

/-- Net effect of the inner loop of calculate_comparison_with_benchmark for
one month: the comparison dict as a lookup function. A key gets an entry
exactly when it is present in both dicts and its benchmark value is nonzero
(a zero benchmark value is skipped by the `continue`). -/
def month_comparisons (benchmark_data month_data : Params) :
    String → Option ComparisonEntry := fun param_name =>
  match benchmark_data.lookup param_name, month_data.lookup param_name with
  | some benchmark_value, some month_value =>
      if benchmark_value = 0 then none
      else
        some { benchmark := benchmark_value
               monthly := month_value
               difference := month_value - benchmark_value
               ratio := safe_divide month_value benchmark_value 1.0 }
  | _, _ => none

/-- CoalConsumptionCalculator.calculate_comparison_with_benchmark: the
`monthly_comparisons` part of its result, one comparison dict per month. -/
def calculate_comparison_with_benchmark (benchmark_data : Params)
    (monthly_data : List (String × Params)) :
    List (String × (String → Option ComparisonEntry)) :=
  monthly_data.map fun month => (month.1, month_comparisons benchmark_data month.2)

/-- Value computed by calculate_basic_coal_consumption; it depends only on
the calorific value and the efficiency. -/
def basic_val (coal_calorific_value efficiency : ℚ) : ℚ :=
  max 80 (min 250 (3600 * 1000 /
    (min 8000 (max 1000 coal_calorific_value) * 4.1868 * min 1.0 (max 0.5 efficiency))))

/-- Pure value of calculate_benchmark_coal_consumption. -/
def benchmark_result (params : Params) (calculation_settings : Settings) :
    BenchmarkResult :=
  let corrections := calculate_comprehensive_correction params calculation_settings
  let basic := basic_val (dict_get params "coal_calorific_value" 4854)
    (dict_get params "efficiency" 0.9)
  { basic_coal_consumption := basic
    benchmark_coal_consumption := basic * corrections.comprehensive
    correction_factor := corrections.comprehensive
    total_correction_factor := corrections.load_factor * corrections.temperature *
      corrections.pressure * corrections.humidity * corrections.steam_parameter *
      corrections.fuel * corrections.sea_temperature
    corrections := corrections }

/-- A sequence of rationals is strictly monotonic: strictly increasing or
strictly decreasing between consecutive elements. -/
def strictly_monotonic (l : List ℚ) : Prop :=
  l.Chain' (fun a b => a < b) ∨ l.Chain' (fun a b => b < a)

/-! ### Helper lemmas -/

/-- Clamping `max lo (min hi x)` lands in `[lo, hi]` whenever `lo ≤ hi`. -/
lemma clamp_mem (lo hi x : ℚ) (h : lo ≤ hi) :
    lo ≤ max lo (min hi x) ∧ max lo (min hi x) ≤ hi :=
  ⟨le_max_left _ _, max_le h (min_le_left _ _)⟩

/-- Clamping is monotone. -/
lemma clamp_mono (lo hi : ℚ) {x y : ℚ} (h : x ≤ y) :
    max lo (min hi x) ≤ max lo (min hi y) :=
  max_le_max le_rfl (min_le_min le_rfl h)

/-- safe_divide of a value by itself with default 1 is 1 (also at zero,
where the default fires). -/
lemma safe_divide_self (a : ℚ) : safe_divide a a 1 = 1 := by
  rcases eq_or_ne a 0 with h | h
  · norm_num [safe_divide, h]
  · unfold safe_divide
    rw [if_neg h, div_self h]

/-- The validated calorific value is at least 1000 kcal/kg. -/
lemma validated_cv_ge (cv : ℚ) : (1000 : ℚ) ≤ min 8000 (max 1000 cv) :=
  le_min (by norm_num) (le_max_left _ _)

/-- The validated efficiency is at least 0.5. -/
lemma validated_eff_ge (eff : ℚ) : (0.5 : ℚ) ≤ min 1.0 (max 0.5 eff) :=
  le_min (by norm_num) (le_max_left _ _)

/-- calculate_basic_coal_consumption never hits its division-by-zero case:
it always returns `some (basic_val cv eff)`. -/
lemma basic_eq (e cv eff : ℚ) :
    calculate_basic_coal_consumption e cv eff = some (basic_val cv eff) := by
  have hcv : (0 : ℚ) < min 8000 (max 1000 cv) * 4.1868 := by
    have := validated_cv_ge cv; nlinarith
  have heff : (0 : ℚ) < min 1.0 (max 0.5 eff) := by
    have := validated_eff_ge eff; nlinarith
  unfold calculate_basic_coal_consumption validate_numeric py_div basic_val
  rw [if_neg (not_le.mpr hcv), if_neg (mul_pos hcv heff).ne']
  rfl

/-- calculate_benchmark_coal_consumption always succeeds, with value
`benchmark_result`. -/
lemma benchmark_eq (p : Params) (s : Settings) :
    calculate_benchmark_coal_consumption p s = some (benchmark_result p s) := by
  simp only [calculate_benchmark_coal_consumption, benchmark_result, basic_eq,
    Option.map_some']

/-- mapM over Option of a function that always succeeds. -/
lemma mapM_of_some {α β : Type} (g : α → β) (l : List α) :
    (l.mapM fun a => some (g a)) = some (l.map g) := by
  induction l with
  | nil => rfl
  | cons a l ih => rw [List.mapM_cons, ih]; rfl

/-! ### Claims -/

/-- C1: for arbitrary inputs every individual correction factor lies within
its documented clamp band (load_factor in [0.8,1.5], temperature in
[0.95,1.05], pressure in [0.98,1.02], humidity in [0.99,1.01], heating in
[0.7,1.0], steam_parameter in [0.97,1.03], fuel in [0.8,1.2],
sea_temperature in [0.98,1.02]), and for every Parameter Set and
Calculation Settings the comprehensive factor lies within [0.7, 1.3]. -/
theorem c1_correction_factors_within_clamp_bands :
    (∀ a b : ℚ, 0.8 ≤ calculate_load_factor_correction a b ∧
      calculate_load_factor_correction a b ≤ 1.5) ∧
    (∀ a b : ℚ, 0.95 ≤ calculate_temperature_correction a b ∧
      calculate_temperature_correction a b ≤ 1.05) ∧
    (∀ a b : ℚ, 0.98 ≤ calculate_pressure_correction a b ∧
      calculate_pressure_correction a b ≤ 1.02) ∧
    (∀ a b : ℚ, 0.99 ≤ calculate_humidity_correction a b ∧
      calculate_humidity_correction a b ≤ 1.01) ∧
    (∀ a b : ℚ, 0.7 ≤ calculate_heating_correction a b ∧
      calculate_heating_correction a b ≤ 1.0) ∧
    (∀ a b c d : ℚ, 0.97 ≤ calculate_steam_parameter_correction a b c d ∧
      calculate_steam_parameter_correction a b c d ≤ 1.03) ∧
    (∀ a b : ℚ, 0.8 ≤ calculate_fuel_correction a b ∧
      calculate_fuel_correction a b ≤ 1.2) ∧
    (∀ a b : ℚ, 0.98 ≤ calculate_sea_temperature_correction a b ∧
      calculate_sea_temperature_correction a b ≤ 1.02) ∧
    (∀ (p : Params) (s : Settings),
      0.7 ≤ (calculate_comprehensive_correction p s).comprehensive ∧
      (calculate_comprehensive_correction p s).comprehensive ≤ 1.3) := by
  refine ⟨fun a b => ?_, fun a b => ?_, fun a b => ?_, fun a b => ?_, fun a b => ?_,
    fun a b c d => ?_, fun a b => ?_, fun a b => ?_, fun p s => ?_⟩
  · exact clamp_mem _ _ _ (by norm_num)
  · exact clamp_mem _ _ _ (by norm_num)
  · exact clamp_mem _ _ _ (by norm_num)
  · exact clamp_mem _ _ _ (by norm_num)
  · unfold calculate_heating_correction
    split
    · norm_num
    · exact clamp_mem _ _ _ (by norm_num)
  · exact clamp_mem _ _ _ (by norm_num)
  · exact clamp_mem _ _ _ (by norm_num)
  · exact clamp_mem _ _ _ (by norm_num)
  · simp only [calculate_comprehensive_correction]
    exact clamp_mem _ _ _ (by norm_num)

/-- C5: every correction factor except load_factor returns exactly 1.0 when
the actual argument equals the base argument, and the load-factor
correction returns exactly 1.0 when actual equals base with a positive
base. -/
theorem c5_neutral_at_baseline :
    (∀ a : ℚ, calculate_temperature_correction a a = 1) ∧
    (∀ a : ℚ, calculate_pressure_correction a a = 1) ∧
    (∀ a : ℚ, calculate_humidity_correction a a = 1) ∧
    (∀ t p : ℚ, calculate_steam_parameter_correction t p t p = 1) ∧
    (∀ a : ℚ, calculate_fuel_correction a a = 1) ∧
    (∀ a : ℚ, calculate_sea_temperature_correction a a = 1) ∧
    (∀ b : ℚ, 0 < b → calculate_load_factor_correction b b = 1) := by
  refine ⟨fun a => ?_, fun a => ?_, fun a => ?_, fun t p => ?_, fun a => ?_,
    fun a => ?_, fun b _ => ?_⟩
  · norm_num [calculate_temperature_correction, min_def, max_def]
  · norm_num [calculate_pressure_correction, safe_divide_self, min_def, max_def]
  · norm_num [calculate_humidity_correction, min_def, max_def]
  · norm_num [calculate_steam_parameter_correction, steam_pressure_sub,
      safe_divide_self, min_def, max_def]
  · norm_num [calculate_fuel_correction, safe_divide_self, min_def, max_def]
  · norm_num [calculate_sea_temperature_correction, min_def, max_def]
  · norm_num [calculate_load_factor_correction, safe_divide_self, min_def, max_def]

/-- Witness for C5: the load-factor hypothesis holds at base load 100. -/
theorem c5_neutral_at_baseline_witness :
    (0 : ℚ) < 100 ∧ calculate_load_factor_correction 100 100 = 1 :=
  ⟨by norm_num, c5_neutral_at_baseline.2.2.2.2.2.2 100 (by norm_num)⟩

/-- C9: for fixed electricity_output, calculate_basic_coal_consumption is
monotonically non-increasing in the coal calorific value and in the
efficiency: raising either argument never increases the returned
consumption. -/
theorem c9_basic_antitone_in_cv_and_efficiency
    (e cv₁ cv₂ eff₁ eff₂ : ℚ) (hcv : cv₁ ≤ cv₂) (heff : eff₁ ≤ eff₂) :
    ∃ c₁ c₂, calculate_basic_coal_consumption e cv₁ eff₁ = some c₁ ∧
      calculate_basic_coal_consumption e cv₂ eff₂ = some c₂ ∧ c₂ ≤ c₁ := by
  refine ⟨_, _, basic_eq e cv₁ eff₁, basic_eq e cv₂ eff₂, ?_⟩
  have hcv₁ : (0 : ℚ) < min 8000 (max 1000 cv₁) :=
    lt_of_lt_of_le (by norm_num) (validated_cv_ge cv₁)
  have heff₁ : (0 : ℚ) < min 1.0 (max 0.5 eff₁) :=
    lt_of_lt_of_le (by norm_num) (validated_eff_ge eff₁)
  have hd₁ : (0 : ℚ) < min 8000 (max 1000 cv₁) * 4.1868 * min 1.0 (max 0.5 eff₁) := by
    have h418 : (0 : ℚ) < 4.1868 := by norm_num
    exact mul_pos (mul_pos hcv₁ h418) heff₁
  have hmono_cv : min 8000 (max 1000 cv₁) ≤ min 8000 (max 1000 cv₂) :=
    min_le_min le_rfl (max_le_max le_rfl hcv)
  have hmono_eff : min 1.0 (max 0.5 eff₁) ≤ min 1.0 (max 0.5 eff₂) :=
    min_le_min le_rfl (max_le_max le_rfl heff)
  have hd : min 8000 (max 1000 cv₁) * 4.1868 * min 1.0 (max 0.5 eff₁) ≤
      min 8000 (max 1000 cv₂) * 4.1868 * min 1.0 (max 0.5 eff₂) := by
    have h1 : min 8000 (max 1000 cv₁) * 4.1868 ≤ min 8000 (max 1000 cv₂) * 4.1868 :=
      mul_le_mul_of_nonneg_right hmono_cv (by norm_num)
    exact mul_le_mul h1 hmono_eff heff₁.le (by nlinarith)
  unfold basic_val
  exact clamp_mono _ _ (div_le_div_of_nonneg_left (by norm_num) hd₁ hd)

/-- Witness for C9 at electricity_output 1000, calorific values 4000 ≤ 5000
and efficiencies 0.8 ≤ 0.9. -/
theorem c9_basic_antitone_witness :
    (4000 : ℚ) ≤ 5000 ∧ (0.8 : ℚ) ≤ 0.9 ∧
    ∃ c₁ c₂, calculate_basic_coal_consumption 1000 4000 0.8 = some c₁ ∧
      calculate_basic_coal_consumption 1000 5000 0.9 = some c₂ ∧ c₂ ≤ c₁ :=
  ⟨by norm_num, by norm_num,
    c9_basic_antitone_in_cv_and_efficiency 1000 4000 5000 0.8 0.9
      (by norm_num) (by norm_num)⟩

/-- C3 counterexample: calculate_basic_coal_consumption with
electricity_output = 0 does not return 0.0 (it returns
5000000000/25403409 ≈ 196.8 g/kWh). -/
theorem c3_counterexample :
    calculate_basic_coal_consumption 0 4854 0.9 ≠ some 0 := by
  simp only [ne_eq, basic_eq, Option.some.injEq]
  norm_num [basic_val, min_def, max_def]

/-- C3 (amended): calculate_basic_coal_consumption never reads
electricity_output — at electricity_output = 0 it returns the same value as
at any other electricity_output, and that value always lies in
[80, 250] g/kWh; it does not return 0.0 at electricity_output = 0. -/
theorem c3_basic_independent_of_electricity_output
    (electricity_output electricity_output' coal_calorific_value efficiency : ℚ) :
    calculate_basic_coal_consumption electricity_output coal_calorific_value efficiency =
      calculate_basic_coal_consumption electricity_output' coal_calorific_value efficiency ∧
    ∃ c, calculate_basic_coal_consumption electricity_output coal_calorific_value efficiency
        = some c ∧ 80 ≤ c ∧ c ≤ 250 := by
  refine ⟨by rw [basic_eq, basic_eq], basic_val coal_calorific_value efficiency,
    basic_eq .., ?_, ?_⟩
  · unfold basic_val
    exact (clamp_mem 80 250 _ (by norm_num)).1
  · unfold basic_val
    exact (clamp_mem 80 250 _ (by norm_num)).2

/-- C4 counterexample: a negative (non-positive) baseline does not give the
neutral value — calculate_pressure_correction 10 (-10) = 0.98 ≠ 1.0. -/
theorem c4_counterexample : calculate_pressure_correction 10 (-10) ≠ 1 := by
  norm_num [calculate_pressure_correction, safe_divide, min_def, max_def]

/-- C4 (amended): when the denominator of the ratio is exactly zero, the
ratio-based corrections return the neutral value 1.0 (for steam_parameter,
its pressure sub-factor is neutral); a merely negative denominator instead
feeds a negative ratio into the formula. -/
theorem c4_zero_denominator_gives_neutral (x : ℚ) :
    calculate_load_factor_correction x 0 = 1 ∧
    calculate_pressure_correction x 0 = 1 ∧
    calculate_fuel_correction 0 x = 1 ∧
    steam_pressure_sub x 0 = 1 := by
  refine ⟨?_, ?_, ?_, ?_⟩ <;>
    norm_num [calculate_load_factor_correction, calculate_pressure_correction,
      calculate_fuel_correction, steam_pressure_sub, safe_divide, min_def, max_def]

/-- C2 (code bug): calculate_heating_impact is not total — with
efficiency = 0 in the Parameter Set (and the default heating_output = 500),
the unguarded heating-coal division has a zero denominator, so the Python
code raises ZeroDivisionError (modelled here as `none`) instead of
returning a numeric result. -/
theorem c2_heating_impact_not_total_at_zero_efficiency :
    calculate_heating_impact [("efficiency", 0)] = none := by
  have h1 : dict_get [("efficiency", 0)] "electricity_output" 1000 = 1000 := rfl
  have h2 : dict_get [("efficiency", 0)] "heating_output" 500 = 500 := rfl
  have h3 : dict_get [("efficiency", 0)] "coal_calorific_value" 4854 = 4854 := rfl
  have h4 : dict_get [("efficiency", 0)] "efficiency" 0.9 = 0 := rfl
  simp only [calculate_heating_impact, h1, h2, h3, h4, basic_eq]
  norm_num [py_div]

/-- C7 counterexample: a key whose benchmark value is 0 gets no comparison
entry at all (the code skips it), rather than an entry with ratio 1.0. -/
theorem c7_counterexample :
    ((calculate_comparison_with_benchmark [("a", 0)] [("jan", [("a", 5)])]).lookup "jan").map
      (fun f => f "a") = some none := rfl

/-- C7 (amended): for every key present in both mappings whose benchmark
value is nonzero, the comparison entry holds difference = month − benchmark
and ratio = month / benchmark; a key whose benchmark value is 0 is skipped
entirely (no entry), so safe_divide's 1.0 default never fires. -/
theorem c7_comparison_difference_and_ratio (benchmark_data month_data : Params)
    (param_name : String) (benchmark_value month_value : ℚ)
    (hb : benchmark_data.lookup param_name = some benchmark_value)
    (hm : month_data.lookup param_name = some month_value) :
    (benchmark_value ≠ 0 →
      month_comparisons benchmark_data month_data param_name =
        some { benchmark := benchmark_value
               monthly := month_value
               difference := month_value - benchmark_value
               ratio := month_value / benchmark_value }) ∧
    (benchmark_value = 0 →
      month_comparisons benchmark_data month_data param_name = none) := by
  unfold month_comparisons
  rw [hb, hm]
  constructor
  · intro h
    dsimp only
    rw [if_neg h]
    unfold safe_divide
    rw [if_neg h]
  · intro h
    dsimp only
    rw [if_pos h]

/-- Witness for C7: the key "a" with benchmark value 2 and month value 5. -/
theorem c7_comparison_difference_and_ratio_witness :
    ((2 : ℚ) ≠ 0) ∧
    month_comparisons [("a", 2)] [("a", 5)] "a" =
      some { benchmark := 2, monthly := 5, difference := 5 - 2, ratio := 5 / 2 } :=
  ⟨by norm_num,
    (c7_comparison_difference_and_ratio [("a", 2)] [("a", 5)] "a" 2 5 rfl rfl).1
      (by norm_num)⟩

/-- C8 counterexample: with empty (default) Calculation Settings and a
baseline sea temperature present, the sea_temperature correction is left at
the neutral 1.0 (its enable flag defaults to False), although the
correction function would give 1.009 at these inputs. -/
theorem c8_counterexample :
    (calculate_comprehensive_correction
        [("base_sea_temperature", 19), ("actual_sea_temperature", 25)] []).sea_temperature = 1 ∧
    calculate_sea_temperature_correction 25 19 ≠ 1 := by
  constructor
  · norm_num [calculate_comprehensive_correction, settings_get, dict_has, List.lookup]
  · norm_num [calculate_sea_temperature_correction, min_def, max_def]

/-- C8 (amended): with an empty Calculation Settings mapping, seven of the
eight corrections (all but sea_temperature) are computed from the Parameter
Set; sea_temperature stays at the neutral 1.0 because its enable flag
defaults to False, even when a baseline sea temperature is present. -/
theorem c8_default_settings_corrections (params : Params) :
    ((calculate_comprehensive_correction params []).load_factor =
      calculate_load_factor_correction
        (dict_get params "actual_load" (dict_get params "base_load" 100))
        (dict_get params "base_load" 100)) ∧
    ((calculate_comprehensive_correction params []).temperature =
      calculate_temperature_correction
        (dict_get params "actual_temperature" (dict_get params "base_temperature" 25))
        (dict_get params "base_temperature" 25)) ∧
    ((calculate_comprehensive_correction params []).pressure =
      calculate_pressure_correction
        (dict_get params "actual_pressure" (dict_get params "base_pressure" 16.7))
        (dict_get params "base_pressure" 16.7)) ∧
    ((calculate_comprehensive_correction params []).humidity =
      calculate_humidity_correction
        (dict_get params "actual_humidity" (dict_get params "base_humidity" 60))
        (dict_get params "base_humidity" 60)) ∧
    ((calculate_comprehensive_correction params []).heating =
      calculate_heating_correction
        (dict_get params "heating_load" 0)
        (dict_get params "total_load" (dict_get params "base_load" 100))) ∧
    ((calculate_comprehensive_correction params []).steam_parameter =
      calculate_steam_parameter_correction
        (dict_get params "actual_steam_temp" 540)
        (dict_get params "actual_steam_pressure" (dict_get params "base_pressure" 16.7))
        (dict_get params "base_steam_temp" 540)
        (dict_get params "base_steam_pressure" (dict_get params "base_pressure" 16.7))) ∧
    ((calculate_comprehensive_correction params []).fuel =
      calculate_fuel_correction
        (dict_get params "actual_calorific_value" (dict_get params "coal_calorific_value" 4854))
        (dict_get params "coal_calorific_value" 4854)) ∧
    ((calculate_comprehensive_correction params []).sea_temperature = 1) := by
  refine ⟨?_, ?_, ?_, ?_, ?_, ?_, ?_, ?_⟩ <;>
    norm_num [calculate_comprehensive_correction, settings_get, List.lookup]

/-- C10: the 'total_correction_factor' entry of
calculate_benchmark_coal_consumption equals the product of the individual
clamped correction factors excluding 'heating' and 'comprehensive', and
that product is not clamped: it can exceed 1.3. -/
theorem c10_total_correction_factor_unclamped :
    (∀ (p : Params) (s : Settings), ∃ r,
      calculate_benchmark_coal_consumption p s = some r ∧
      r.total_correction_factor =
        (calculate_comprehensive_correction p s).load_factor *
        (calculate_comprehensive_correction p s).temperature *
        (calculate_comprehensive_correction p s).pressure *
        (calculate_comprehensive_correction p s).humidity *
        (calculate_comprehensive_correction p s).steam_parameter *
        (calculate_comprehensive_correction p s).fuel *
        (calculate_comprehensive_correction p s).sea_temperature) ∧
    (∃ (p : Params) (s : Settings) (r : BenchmarkResult),
      calculate_benchmark_coal_consumption p s = some r ∧
      1.3 < r.total_correction_factor) := by
  constructor
  · intro p s
    exact ⟨benchmark_result p s, benchmark_eq p s, rfl⟩
  · refine ⟨[("actual_load", 600), ("actual_calorific_value", 2000)], [],
      benchmark_result _ _, benchmark_eq _ _, ?_⟩
    have hload : calculate_load_factor_correction 600 100 = 1.5 := by
      norm_num [calculate_load_factor_correction, safe_divide, min_def, max_def]
    have htemp : calculate_temperature_correction 25 25 = 1 := by
      norm_num [calculate_temperature_correction, min_def, max_def]
    have hpress : calculate_pressure_correction 16.7 16.7 = 1 := by
      norm_num [calculate_pressure_correction, safe_divide, min_def, max_def]
    have hhum : calculate_humidity_correction 60 60 = 1 := by
      norm_num [calculate_humidity_correction, min_def, max_def]
    have hheat : calculate_heating_correction 0 100 = 1 := by
      norm_num [calculate_heating_correction]
    have hsteam : calculate_steam_parameter_correction 540 16.7 540 16.7 = 1 := by
      norm_num [calculate_steam_parameter_correction, steam_pressure_sub, safe_divide,
        min_def, max_def]
    have hfuel : calculate_fuel_correction 2000 4854 = 1.2 := by
      norm_num [calculate_fuel_correction, safe_divide, min_def, max_def]
    have hc : calculate_comprehensive_correction
        [("actual_load", 600), ("actual_calorific_value", 2000)] [] =
        ⟨1.5, 1, 1, 1, 1, 1, 1.2, 1, 1.3⟩ := by
      simp [calculate_comprehensive_correction, settings_get, dict_get, dict_has,
        List.lookup, hload, htemp, hpress, hhum, hheat, hsteam, hfuel]
      norm_num [min_def, max_def]
    have hproj : (benchmark_result
        [("actual_load", 600), ("actual_calorific_value", 2000)] []).total_correction_factor =
        (calculate_comprehensive_correction
          [("actual_load", 600), ("actual_calorific_value", 2000)] []).load_factor *
        (calculate_comprehensive_correction
          [("actual_load", 600), ("actual_calorific_value", 2000)] []).temperature *
        (calculate_comprehensive_correction
          [("actual_load", 600), ("actual_calorific_value", 2000)] []).pressure *
        (calculate_comprehensive_correction
          [("actual_load", 600), ("actual_calorific_value", 2000)] []).humidity *
        (calculate_comprehensive_correction
          [("actual_load", 600), ("actual_calorific_value", 2000)] []).steam_parameter *
        (calculate_comprehensive_correction
          [("actual_load", 600), ("actual_calorific_value", 2000)] []).fuel *
        (calculate_comprehensive_correction
          [("actual_load", 600), ("actual_calorific_value", 2000)] []).sea_temperature := rfl
    rw [hproj, hc]
    norm_num

/-- The list of variable values produced by a sensitivity sweep. -/
def sweep_values (min_value step : ℚ) (n : ℕ) : List ℚ :=
  (List.range n).map fun (i : ℕ) => min_value + (i : ℚ) * step

/-- Explicit value of calculate_coal_consumption_sensitivity for at least
two steps. -/
lemma sensitivity_eq (p : Params) (s : Settings) (v : String) (mn mx : ℚ)
    (n : ℕ) (h : 2 ≤ n) :
    calculate_coal_consumption_sensitivity p s v mn mx n =
      some ((List.range n).map fun (i : ℕ) =>
        (mn + (i : ℚ) * safe_divide (mx - mn) ((n : ℚ) - 1) 0.0,
         (benchmark_result
            ((v, mn + (i : ℚ) * safe_divide (mx - mn) ((n : ℚ) - 1) 0.0) :: p)
            s).benchmark_coal_consumption)) := by
  unfold calculate_coal_consumption_sensitivity
  rw [if_neg (by omega : ¬ n < 2)]
  simp only [benchmark_eq, Option.map_some']
  exact mapM_of_some _ _

/-- The sweep always succeeds, returns n points, and its variable values
are `sweep_values`. -/
lemma sensitivity_fst (p : Params) (s : Settings) (v : String) (mn mx : ℚ)
    (n : ℕ) (h : 2 ≤ n) :
    ∃ l, calculate_coal_consumption_sensitivity p s v mn mx n = some l ∧
      l.length = n ∧
      l.map Prod.fst = sweep_values mn (safe_divide (mx - mn) ((n : ℚ) - 1) 0.0) n := by
  refine ⟨_, sensitivity_eq p s v mn mx n h, ?_, ?_⟩
  · simp only [List.length_map, List.length_range]
  · unfold sweep_values
    rw [List.map_map]
    rfl

/-- The first swept value is min_value. -/
lemma sweep_values_head (mn step : ℚ) (m : ℕ) :
    (sweep_values mn step (m + 2)).head? = some mn := by
  unfold sweep_values
  rw [List.range_succ_eq_map]
  simp

/-- The last swept value is min_value + (m + 1) · step. -/
lemma sweep_values_last (mn step : ℚ) (m : ℕ) :
    (sweep_values mn step (m + 2)).getLast? = some (mn + ((m : ℚ) + 1) * step) := by
  unfold sweep_values
  rw [List.range_succ]
  simp only [List.map_append, List.map_cons, List.map_nil, List.getLast?_concat]
  congr 1
  push_cast
  ring

/-- A sweep with positive step is strictly increasing. -/
lemma sweep_values_chain_lt (mn step : ℚ) (m : ℕ) (h : 0 < step) :
    (sweep_values mn step (m + 2)).Chain' (fun a b => a < b) := by
  unfold sweep_values
  rw [List.chain'_map]
  refine (List.chain'_range_succ _ (m + 1)).mpr fun i hi => ?_
  have hlt : ((i : ℚ)) * step < ((i + 1 : ℕ) : ℚ) * step := by push_cast; nlinarith
  linarith

/-- A sweep with negative step is strictly decreasing. -/
lemma sweep_values_chain_gt (mn step : ℚ) (m : ℕ) (h : step < 0) :
    (sweep_values mn step (m + 2)).Chain' (fun a b => b < a) := by
  unfold sweep_values
  rw [List.chain'_map]
  refine (List.chain'_range_succ _ (m + 1)).mpr fun i hi => ?_
  have hlt : ((i + 1 : ℕ) : ℚ) * step < ((i : ℚ)) * step := by push_cast; nlinarith
  linarith

/-- C6 (amended): for steps ≥ 2, the sensitivity sweep returns exactly
`steps` (value, consumption) pairs whose first value is exactly min_value
and whose last value is exactly max_value, and whose variable values are
strictly monotonic provided min_value ≠ max_value (when min_value =
max_value every swept value equals min_value, so the sequence is constant,
not strictly monotonic). -/
theorem c6_sensitivity_sweep_shape (params : Params) (settings : Settings)
    (variable_name : String) (min_value max_value : ℚ) (steps : ℕ)
    (hsteps : 2 ≤ steps) :
    ∃ l : List (ℚ × ℚ),
      calculate_coal_consumption_sensitivity params settings variable_name
        min_value max_value steps = some l ∧
      l.length = steps ∧
      (l.map Prod.fst).head? = some min_value ∧
      (l.map Prod.fst).getLast? = some max_value ∧
      (min_value ≠ max_value → strictly_monotonic (l.map Prod.fst)) := by
  obtain ⟨m, rfl⟩ : ∃ m, steps = m + 2 := ⟨steps - 2, by omega⟩
  obtain ⟨l, hsome, hlen, hfst⟩ :=
    sensitivity_fst params settings variable_name min_value max_value (m + 2) hsteps
  have hcast : ((m + 2 : ℕ) : ℚ) - 1 = (m : ℚ) + 1 := by push_cast; ring
  have hm1 : ((m : ℚ) + 1) ≠ 0 := by positivity
  have hstep_val : safe_divide (max_value - min_value) (((m + 2 : ℕ) : ℚ) - 1) 0.0 =
      (max_value - min_value) / ((m : ℚ) + 1) := by
    unfold safe_divide
    rw [hcast, if_neg hm1]
  refine ⟨l, hsome, hlen, ?_, ?_, ?_⟩
  · rw [hfst, sweep_values_head]
  · rw [hfst, sweep_values_last, hstep_val]
    congr 1
    field_simp
  · intro hne'
    rcases lt_or_gt_of_ne hne' with hlt | hgt
    · left
      rw [hfst]
      refine sweep_values_chain_lt _ _ _ ?_
      rw [hstep_val]
      exact div_pos (by linarith) (by positivity)
    · right
      rw [hfst]
      refine sweep_values_chain_gt _ _ _ ?_
      rw [hstep_val]
      exact div_neg_of_neg_of_pos (by linarith) (by positivity)

/-- Witness for C6: a 2-step sweep of "efficiency" from 0 to 1. -/
theorem c6_sensitivity_sweep_shape_witness :
    2 ≤ 2 ∧ ∃ l : List (ℚ × ℚ),
      calculate_coal_consumption_sensitivity [] [] "efficiency" 0 1 2 = some l ∧
      l.length = 2 ∧
      (l.map Prod.fst).head? = some 0 ∧
      (l.map Prod.fst).getLast? = some 1 ∧
      ((0 : ℚ) ≠ 1 → strictly_monotonic (l.map Prod.fst)) :=
  ⟨by norm_num, c6_sensitivity_sweep_shape [] [] "efficiency" 0 1 2 (by norm_num)⟩

/-- C6 counterexample: with min_value = max_value = 5 and 2 steps, the two
swept values are both 5, which is not a strictly monotonic sequence. -/
theorem c6_counterexample :
    (calculate_coal_consumption_sensitivity [] [] "coal_calorific_value" 5 5 2).map
      (fun l => l.map Prod.fst) = some [5, 5] ∧
    ¬ strictly_monotonic [5, 5] := by
  constructor
  · rw [sensitivity_eq [] [] "coal_calorific_value" 5 5 2 (by norm_num)]
    norm_num [safe_divide, List.range_succ]
  · norm_num [strictly_monotonic, List.chain'_cons]
